import Mathlib

/-!
Verification of the authorization guard of `nestjs-better-auth`.

The development shallowly embeds the guard source (`AuthGuard` and its
context-indexed error table `AuthContextErrorMap`): role values, the
role-matching function `matchesRequiredRole`, the organization-role lookup
`getMemberRoleInOrganization` / `checkOrgRole`, the error mapper, and the
decision procedure `canActivate`.

Modelling conventions:
- JavaScript strings are Lean `String`s; `split(",")` and `trim()` are
  re-implemented structurally over the character list (`splitComma`,
  `trimStr`) with the same semantics, so that concrete instances evaluate
  inside the kernel.
- JavaScript truthiness matters at two points of the source: a `user.role`
  value that is `undefined` or the empty string is falsy (an array is always
  truthy), and an `activeOrganizationId` that is `undefined` or the empty
  string is falsy. Both are modelled explicitly.
- The external identity provider is an oracle (`AuthApi`): each capability is
  an optional field, and an invocation of it either returns a role (possibly
  absent) or raises, modelled by `LookupResult.err`.
- `canActivate` returns, besides the decision (`Except MappedError Bool`,
  mirroring "return true or throw a mapped error"), a trace of the
  observable effects the claims speak about: the session/user attached to the
  request view, the number of `getSession` calls, whether the `ORG_ROLES`
  metadata was read, and whether the organization-role lookup was invoked.
-/

/-- A `user.role` value: a single (possibly comma-separated) string or an
array of strings; absence is `Option.none` at use sites. -/
inductive RoleVal
  | str (s : String)
  | arr (roles : List String)
deriving DecidableEq

/-- JS `s.split(",")` : split on every comma, keeping empty segments
(`"".split(",") = [""]`). -/
def splitComma (s : String) : List String :=
  (s.data.splitOn ',').map fun cs => ⟨cs⟩

/-- JS `s.trim()` : drop leading and trailing whitespace. -/
def trimStr (s : String) : String :=
  ⟨((s.data.dropWhile Char.isWhitespace).reverse.dropWhile Char.isWhitespace).reverse⟩

/-- JS truthiness of a role value: `undefined` and `""` are falsy, any array
is truthy. -/
def roleTruthy : Option RoleVal → Bool
  | none => false
  | some (.str s) => s ≠ ""
  | some (.arr _) => true

/-- `AuthGuard.matchesRequiredRole` : a falsy role never matches; an array
matches iff some element is in `requiredRoles`; a string is split on commas
and each piece trimmed before the membership test. -/
def matchesRequiredRole (role : Option RoleVal) (requiredRoles : List String) : Bool :=
  if !roleTruthy role then false
  else
    match role with
    | some (.arr rs) => rs.any fun r => requiredRoles.contains r
    | some (.str s) => (splitComma s).any fun r => requiredRoles.contains (trimStr r)
    | none => false

/-- User record of a session: the identity record with its optional role. -/
structure UserRec where
  role : Option RoleVal
deriving DecidableEq

/-- Inner session record: carries the optional active organization id. -/
structure SessionRec where
  activeOrganizationId : Option String
deriving DecidableEq

/-- A non-null `UserSession` as the guard sees it. -/
structure UserSession where
  user : UserRec
  session : SessionRec
deriving DecidableEq

/-- `AuthGuard.checkUserRole` : the system-level role check reads
`session.user.role` only. -/
def checkUserRole (session : UserSession) (requiredRoles : List String) : Bool :=
  matchesRequiredRole session.user.role requiredRoles

/-- Result of one call to an identity-provider capability: a role (possibly
absent) or a raised exception. -/
inductive LookupResult
  | ok (role : Option String)
  | err
deriving DecidableEq

/-- The identity provider's organization API as an oracle: each capability is
`none` when the provider does not expose that operation. -/
structure AuthApi where
  getActiveMemberRole : Option LookupResult
  getActiveMember : Option LookupResult
deriving DecidableEq

/-- `AuthGuard.getMemberRoleInOrganization` : try `getActiveMemberRole`
first, fall back to `getActiveMember`, return `undefined` when neither
capability exists; a raised provider error is re-thrown. -/
def getMemberRoleInOrganization (api : AuthApi) : LookupResult :=
  match api.getActiveMemberRole with
  | some r => r
  | none =>
    match api.getActiveMember with
    | some r => r
    | none => .ok none

/-- JS truthiness of `session.session.activeOrganizationId`: `undefined` and
`""` are falsy. -/
def orgIdPresent (session : UserSession) : Bool :=
  match session.session.activeOrganizationId with
  | none => false
  | some v => v ≠ ""

/-- `AuthGuard.checkOrgRole` : no truthy active organization id means
`false`; otherwise the member role is looked up and matched, with a raised
lookup error caught and converted to `false`. -/
def checkOrgRole (session : UserSession) (api : AuthApi) (requiredRoles : List String) : Bool :=
  if !orgIdPresent session then false
  else
    match getMemberRoleInOrganization api with
    | .ok role => matchesRequiredRole (role.map .str) requiredRoles
    | .err => false

/-- The transport kinds the error table is indexed by (`ContextType` plus
`"graphql"`). -/
inductive CtxType
  | http
  | graphql
  | ws
  | rpc
deriving DecidableEq

/-- The abstract error kinds (`AuthErrorType`). -/
inductive AuthErrorType
  | UNAUTHORIZED
  | FORBIDDEN
deriving DecidableEq

/-- A detail payload handed to an error constructor: a string or a body
object (with optional `code` and `message` fields, the two fields the source
puts in default bodies and reads back in the GraphQL branch). -/
inductive ErrArg
  | str (s : String)
  | obj (code : Option String) (message : Option String)
deriving DecidableEq

/-- A transport-native error value produced by the mapper. -/
inductive MappedError
  | httpError (status : Nat) (body : ErrArg)
  | graphqlError (message : String) (extensions : Option ErrArg)
  | wsError (payload : ErrArg)
  | rpcError (message : String)
deriving DecidableEq

/-- The literal name of an error kind (`"UNAUTHORIZED"` / `"FORBIDDEN"`). -/
def authErrorName : AuthErrorType → String
  | .UNAUTHORIZED => "UNAUTHORIZED"
  | .FORBIDDEN => "FORBIDDEN"

/-- Default HTTP body per error kind. -/
def httpDefaultBody : AuthErrorType → ErrArg
  | .UNAUTHORIZED => .obj (some "UNAUTHORIZED") (some "Unauthorized")
  | .FORBIDDEN => .obj (some "FORBIDDEN") (some "Insufficient permissions")

/-- Default GraphQL message per error kind. -/
def graphqlDefaultMessage : AuthErrorType → String
  | .UNAUTHORIZED => "Unauthorized"
  | .FORBIDDEN => "Forbidden"

/-- `AuthContextErrorMap` : the transport-kind × error-kind table of error
constructors. `http` builds a 401/403 with the detail or the default body;
`graphql` builds a GraphQL error from a string detail, an object detail (its
`message` field or the default, the object kept as options), or the default;
`ws` wraps the detail or the literal kind name; `rpc` always carries the
literal kind name. -/
def AuthContextErrorMap (ctx : CtxType) (kind : AuthErrorType) (args : Option ErrArg) : MappedError :=
  match ctx with
  | .http =>
    let status := match kind with | .UNAUTHORIZED => 401 | .FORBIDDEN => 403
    .httpError status (args.getD (httpDefaultBody kind))
  | .graphql =>
    match args with
    | some (.str s) => .graphqlError s none
    | some (.obj c m) => .graphqlError (m.getD (graphqlDefaultMessage kind)) (some (.obj c m))
    | none => .graphqlError (graphqlDefaultMessage kind) none
  | .ws => .wsError (args.getD (.str (authErrorName kind)))
  | .rpc => .rpcError (authErrorName kind)

/-- The four policy fields resolved from metadata; the role lists are
`Option` because the reflector may return `undefined`. -/
structure Policy where
  isPublic : Bool
  isOptional : Bool
  requiredRoles : Option (List String)
  requiredOrgRoles : Option (List String)
deriving DecidableEq

instance {ε α : Type} [DecidableEq ε] [DecidableEq α] : DecidableEq (Except ε α) := fun a b =>
  match a, b with
  | .ok x, .ok y =>
    if h : x = y then .isTrue (h ▸ rfl) else .isFalse fun hh => h (Except.ok.inj hh)
  | .error x, .error y =>
    if h : x = y then .isTrue (h ▸ rfl) else .isFalse fun hh => h (Except.error.inj hh)
  | .ok _, .error _ => .isFalse fun hh => Except.noConfusion hh
  | .error _, .ok _ => .isFalse fun hh => Except.noConfusion hh

/-- Observable outcome of one `canActivate` invocation: the decision (allow
or a thrown mapped error) plus the trace the claims speak about. -/
structure GuardOutput where
  result : Except MappedError Bool
  sessionAttached : Option UserSession
  userAttached : Option UserRec
  getSessionCalls : Nat
  orgPolicyRead : Bool
  orgLookupAttempted : Bool
deriving DecidableEq

/-- `AuthGuard.canActivate` : fetch the session once and attach
`session` / `session?.user ?? null` to the request view; allow public
routes; allow optional routes with no session; throw mapped `UNAUTHORIZED`
with no session otherwise; run the system-role check when `ROLES` is present
and non-empty, throwing mapped `FORBIDDEN` on failure; then read `ORG_ROLES`
and, when present and non-empty, run `checkOrgRole`, throwing mapped
`FORBIDDEN` on failure; otherwise allow. `orgPolicyRead` records reaching
the `ORG_ROLES` metadata read, `orgLookupAttempted` records an actual
provider lookup (the org check with a truthy active organization id).
`canActivateCore` is the decision with the two trace bits; `canActivate`
assembles the observable output (the session/user attachment to the request
view happens before the decision in the source, unconditionally). -/
def canActivateCore (ctx : CtxType) (pol : Policy) (session : Option UserSession)
    (api : AuthApi) : Except MappedError Bool × Bool × Bool :=
  if pol.isPublic then (.ok true, false, false)
  else if session.isNone && pol.isOptional then (.ok true, false, false)
  else
    match session with
    | none => (.error (AuthContextErrorMap ctx .UNAUTHORIZED none), false, false)
    | some s =>
      let sysRolesFail :=
        match pol.requiredRoles with
        | some rs => !rs.isEmpty && !checkUserRole s rs
        | none => false
      if sysRolesFail then (.error (AuthContextErrorMap ctx .FORBIDDEN none), false, false)
      else
        match pol.requiredOrgRoles with
        | some ors =>
          if ors.isEmpty then (.ok true, true, false)
          else if checkOrgRole s api ors then (.ok true, true, orgIdPresent s)
          else (.error (AuthContextErrorMap ctx .FORBIDDEN none), true, orgIdPresent s)
        | none => (.ok true, true, false)

def canActivate (ctx : CtxType) (pol : Policy) (session : Option UserSession)
    (api : AuthApi) : GuardOutput :=
  let core := canActivateCore ctx pol session api
  { result := core.1
    sessionAttached := session
    userAttached := session.map (·.user)
    getSessionCalls := 1
    orgPolicyRead := core.2.1
    orgLookupAttempted := core.2.2 }

/-- Modelled from the spec: the normalization of a role value to its set of
granted roles — absent and empty values denote the empty set, a string is
split on commas with each entry trimmed, an array is taken as is. -/
def specNormalizeRole : Option RoleVal → List String
  | none => []
  | some (.str s) => if s = "" then [] else (splitComma s).map trimStr
  | some (.arr rs) => rs

/-- Helper: a string role value matches iff the trimmed comma-segments of
the string intersect the required set. -/
theorem matches_str_eq_any_trimmed (s : String) (R : List String) (hs : s ≠ "") :
    matchesRequiredRole (some (.str s)) R
      = ((splitComma s).map trimStr).any fun r => R.contains r := by
  simp [matchesRequiredRole, roleTruthy, hs, List.any_map, Function.comp_def]

/-- Helper: a non-empty list has `isEmpty = false`. -/
theorem ne_nil_isEmpty_false {α : Type} (l : List α) (h : l ≠ []) : l.isEmpty = false := by
  cases l with
  | nil => exact absurd rfl h
  | cons a as => rfl

/-- C1: for a non-empty required-role set `R` and any role value `V`, the
system-role check grants iff the normalized set of `V` intersects `R`; an
absent or empty role value never matches; and in the guard a failed check
rejects the invocation with the transport-mapped `FORBIDDEN` error while a
passed check (with no org-role requirement) allows it. -/
theorem system_role_check_iff_intersects (R : List String) (hR : R ≠ [])
    (V : Option RoleVal) (ctx : CtxType) (opt : Bool) (s : UserSession)
    (api : AuthApi) (hrole : s.user.role = V) :
    (matchesRequiredRole V R = true ↔
      ((specNormalizeRole V).any fun r => R.contains r) = true)
    ∧ ((V = none ∨ V = some (.str "") ∨ V = some (.arr [])) →
        matchesRequiredRole V R = false)
    ∧ (matchesRequiredRole V R = true →
        (canActivate ctx ⟨false, opt, some R, none⟩ (some s) api).result = .ok true)
    ∧ (matchesRequiredRole V R = false →
        (canActivate ctx ⟨false, opt, some R, none⟩ (some s) api).result
          = .error (AuthContextErrorMap ctx .FORBIDDEN none)) := by
  refine ⟨?_, ?_, ?_, ?_⟩
  · match V with
    | none => simp [matchesRequiredRole, roleTruthy, specNormalizeRole]
    | some (.arr rs) => simp [matchesRequiredRole, roleTruthy, specNormalizeRole]
    | some (.str s0) =>
      by_cases hs : s0 = ""
      · subst hs; simp [matchesRequiredRole, roleTruthy, specNormalizeRole]
      · rw [matches_str_eq_any_trimmed s0 R hs]
        simp [specNormalizeRole, hs]
  · rintro (rfl | rfl | rfl) <;> simp [matchesRequiredRole, roleTruthy]
  · intro hmatch
    simp [canActivate, canActivateCore, checkUserRole, hrole, hmatch]
  · intro hmatch
    simp [canActivate, canActivateCore, checkUserRole, hrole, hmatch,
      ne_nil_isEmpty_false R hR]

/-- C1 witness: a concrete failing instance (role `"user"` against required
set `["admin"]`) where the check denies and the guard rejects with the
mapped `FORBIDDEN` (HTTP 403 with the default body). -/
theorem system_role_check_iff_intersects_witness :
    matchesRequiredRole (some (.str "user")) ["admin"] = false
    ∧ (canActivate .http ⟨false, false, some ["admin"], none⟩
        (some ⟨⟨some (.str "user")⟩, ⟨none⟩⟩) ⟨none, none⟩).result
      = .error (.httpError 403 (.obj (some "FORBIDDEN") (some "Insufficient permissions"))) := by
  have h := system_role_check_iff_intersects ["admin"] (by decide)
    (some (.str "user")) .http false ⟨⟨some (.str "user")⟩, ⟨none⟩⟩ ⟨none, none⟩ rfl
  exact ⟨by decide, h.2.2.2 (by decide)⟩

/-- C6: the three role-value forms denote the same set of granted roles —
any comma-separated string whose trimmed segments are exactly `names` gets
the same verdict from the role-matching function as the list form `names`
against every required-role set, and both normalize to the same set (the
single-string form is the one-element case). -/
theorem role_value_forms_equivalent (names : List String) (s : String) (R : List String)
    (hsplit : (splitComma s).map trimStr = names) (hs : s ≠ "") :
    matchesRequiredRole (some (.str s)) R = matchesRequiredRole (some (.arr names)) R
    ∧ specNormalizeRole (some (.str s)) = specNormalizeRole (some (.arr names)) := by
  constructor
  · rw [matches_str_eq_any_trimmed s R hs, hsplit]
    simp [matchesRequiredRole, roleTruthy]
  · simp [specNormalizeRole, hs, hsplit]

/-- C6 witness: `" admin ,mod"` and `["admin", "mod"]` agree against the
required set `["mod"]` and normalize identically. -/
theorem role_value_forms_equivalent_witness :
    matchesRequiredRole (some (.str " admin ,mod")) ["mod"]
      = matchesRequiredRole (some (.arr ["admin", "mod"])) ["mod"]
    ∧ specNormalizeRole (some (.str " admin ,mod"))
      = specNormalizeRole (some (.arr ["admin", "mod"])) :=
  role_value_forms_equivalent ["admin", "mod"] " admin ,mod" ["mod"] (by decide) (by decide)

/-- C9: the error-mapper table — `http` yields 401/403 with the provided
detail or the default bodies; `ws` wraps the detail or the literal kind
name; `rpc` always carries the literal kind name; `graphql` uses a string
detail as message, an object detail's `message` field (keeping the object),
or the default message; and the literal names/defaults are the expected
strings. -/
theorem error_mapper_table_correct :
    (∀ a : ErrArg, AuthContextErrorMap .http .UNAUTHORIZED (some a) = .httpError 401 a)
    ∧ AuthContextErrorMap .http .UNAUTHORIZED none
        = .httpError 401 (.obj (some "UNAUTHORIZED") (some "Unauthorized"))
    ∧ (∀ a : ErrArg, AuthContextErrorMap .http .FORBIDDEN (some a) = .httpError 403 a)
    ∧ AuthContextErrorMap .http .FORBIDDEN none
        = .httpError 403 (.obj (some "FORBIDDEN") (some "Insufficient permissions"))
    ∧ (∀ (k : AuthErrorType) (a : ErrArg), AuthContextErrorMap .ws k (some a) = .wsError a)
    ∧ (∀ k : AuthErrorType, AuthContextErrorMap .ws k none = .wsError (.str (authErrorName k)))
    ∧ (∀ (k : AuthErrorType) (args : Option ErrArg),
        AuthContextErrorMap .rpc k args = .rpcError (authErrorName k))
    ∧ (∀ (k : AuthErrorType) (m : String),
        AuthContextErrorMap .graphql k (some (.str m)) = .graphqlError m none)
    ∧ (∀ (k : AuthErrorType) (c : Option String) (m : String),
        AuthContextErrorMap .graphql k (some (.obj c (some m)))
          = .graphqlError m (some (.obj c (some m))))
    ∧ (∀ (k : AuthErrorType) (c : Option String),
        AuthContextErrorMap .graphql k (some (.obj c none))
          = .graphqlError (graphqlDefaultMessage k) (some (.obj c none)))
    ∧ (∀ k : AuthErrorType,
        AuthContextErrorMap .graphql k none = .graphqlError (graphqlDefaultMessage k) none)
    ∧ authErrorName .UNAUTHORIZED = "UNAUTHORIZED"
    ∧ authErrorName .FORBIDDEN = "FORBIDDEN"
    ∧ graphqlDefaultMessage .UNAUTHORIZED = "Unauthorized"
    ∧ graphqlDefaultMessage .FORBIDDEN = "Forbidden" :=
  ⟨fun _ => rfl, rfl, fun _ => rfl, rfl, fun _ _ => rfl, fun _ => rfl,
    fun _ _ => rfl, fun _ _ => rfl, fun _ _ _ => rfl, fun _ _ => rfl, fun _ => rfl,
    rfl, rfl, rfl, rfl⟩

/-- C4: for every invocation — every transport, policy (public included),
session value, and provider — the guard fetches the session exactly once and
attaches it to the request view, with `user` set to the session's user or
`null` when the session is absent. -/
theorem session_fetched_once_and_attached (ctx : CtxType) (pol : Policy)
    (session : Option UserSession) (api : AuthApi) :
    (canActivate ctx pol session api).getSessionCalls = 1
    ∧ (canActivate ctx pol session api).sessionAttached = session
    ∧ (canActivate ctx pol session api).userAttached = session.map (·.user) :=
  ⟨rfl, rfl, rfl⟩

/-- C7: a public handler allows every request — with or without a session,
whatever roles or org roles are declared — and the session/user are still
attached to the request view. -/
theorem public_route_always_allows (ctx : CtxType) (pol : Policy)
    (session : Option UserSession) (api : AuthApi) (hpub : pol.isPublic = true) :
    (canActivate ctx pol session api).result = .ok true
    ∧ (canActivate ctx pol session api).sessionAttached = session
    ∧ (canActivate ctx pol session api).userAttached = session.map (·.user) := by
  refine ⟨?_, rfl, rfl⟩
  simp [canActivate, canActivateCore, hpub]

/-- C7 witness: a public handler that also declares roles and org roles
allows a caller whose session would fail both checks. -/
theorem public_route_always_allows_witness :
    (canActivate .http ⟨true, false, some ["admin"], some ["owner"]⟩
      (some ⟨⟨some (.str "user")⟩, ⟨none⟩⟩) ⟨none, none⟩).result = .ok true :=
  (public_route_always_allows .http ⟨true, false, some ["admin"], some ["owner"]⟩
    (some ⟨⟨some (.str "user")⟩, ⟨none⟩⟩) ⟨none, none⟩ rfl).1

/-- C3: with no session, an optional (non-public) handler allows the request
with the view's session and user staying `null`, while a handler that is
neither public nor optional rejects with the transport-mapped
`UNAUTHORIZED` error. -/
theorem no_session_optional_allows_else_unauthorized (ctx : CtxType) (pol : Policy)
    (api : AuthApi) (hpub : pol.isPublic = false) :
    (pol.isOptional = true →
      (canActivate ctx pol none api).result = .ok true
      ∧ (canActivate ctx pol none api).sessionAttached = none
      ∧ (canActivate ctx pol none api).userAttached = none)
    ∧ (pol.isOptional = false →
      (canActivate ctx pol none api).result
        = .error (AuthContextErrorMap ctx .UNAUTHORIZED none)) := by
  constructor
  · intro hopt
    exact ⟨by simp [canActivate, canActivateCore, hpub, hopt], rfl, rfl⟩
  · intro hopt
    simp [canActivate, canActivateCore, hpub, hopt]

/-- C3 witness: an optional handler allows an anonymous HTTP request, a
plain protected handler rejects it with the mapped 401. -/
theorem no_session_optional_allows_else_unauthorized_witness :
    (canActivate .http ⟨false, true, none, none⟩ none ⟨none, none⟩).result = .ok true
    ∧ (canActivate .http ⟨false, false, none, none⟩ none ⟨none, none⟩).result
      = .error (AuthContextErrorMap .http .UNAUTHORIZED none) :=
  ⟨((no_session_optional_allows_else_unauthorized .http ⟨false, true, none, none⟩
      ⟨none, none⟩ rfl).1 rfl).1,
   (no_session_optional_allows_else_unauthorized .http ⟨false, false, none, none⟩
      ⟨none, none⟩ rfl).2 rfl⟩

/-- C8: an optional non-public handler with a non-empty required-role set
still allows an anonymous invocation — the optional-auth early return comes
before the role checks. -/
theorem optional_no_session_skips_role_checks (ctx : CtxType) (R : List String)
    (orgR : Option (List String)) (api : AuthApi) (hR : R ≠ []) :
    (canActivate ctx ⟨false, true, some R, orgR⟩ none api).result = .ok true
    ∧ (canActivate ctx ⟨false, true, some R, orgR⟩ none api).sessionAttached = none :=
  ⟨by simp [canActivate, canActivateCore], rfl⟩

/-- C8 witness: an anonymous caller is allowed on an optional handler that
requires the `admin` role and an org role. -/
theorem optional_no_session_skips_role_checks_witness :
    (canActivate .http ⟨false, true, some ["admin"], some ["owner"]⟩
      none ⟨none, none⟩).result = .ok true :=
  (optional_no_session_skips_role_checks .http ["admin"] (some ["owner"])
    ⟨none, none⟩ (by decide)).1

/-- C5: a handler requiring org roles, invoked with a valid session whose
`activeOrganizationId` is absent, is denied with the transport-mapped
`FORBIDDEN` and no organization-role lookup is made. -/
theorem org_roles_absent_org_denies_without_lookup (ctx : CtxType) (opt : Bool)
    (rr : Option (List String)) (ors : List String) (s : UserSession) (api : AuthApi)
    (hne : ors ≠ [])
    (hnoorg : s.session.activeOrganizationId = none)
    (hsys : ∀ rs, rr = some rs → checkUserRole s rs = true ∨ rs = []) :
    (canActivate ctx ⟨false, opt, rr, some ors⟩ (some s) api).result
      = .error (AuthContextErrorMap ctx .FORBIDDEN none)
    ∧ (canActivate ctx ⟨false, opt, rr, some ors⟩ (some s) api).orgLookupAttempted = false := by
  have hid : orgIdPresent s = false := by simp [orgIdPresent, hnoorg]
  have horg : checkOrgRole s api ors = false := by simp [checkOrgRole, hid]
  refine ⟨?_, ?_⟩ <;>
  · simp [canActivate, canActivateCore, horg, hid, ne_nil_isEmpty_false ors hne]
    split <;> rfl

/-- C5 witness: a caller with a system-level `admin` role but no active
organization is denied an org-role-gated route and the provider is never
asked. -/
theorem org_roles_absent_org_denies_without_lookup_witness :
    (canActivate .http ⟨false, false, none, some ["admin"]⟩
      (some ⟨⟨some (.str "admin")⟩, ⟨none⟩⟩) ⟨some (.ok (some "admin")), none⟩).result
      = .error (AuthContextErrorMap .http .FORBIDDEN none)
    ∧ (canActivate .http ⟨false, false, none, some ["admin"]⟩
        (some ⟨⟨some (.str "admin")⟩, ⟨none⟩⟩) ⟨some (.ok (some "admin")), none⟩).orgLookupAttempted
      = false :=
  org_roles_absent_org_denies_without_lookup .http false none ["admin"]
    ⟨⟨some (.str "admin")⟩, ⟨none⟩⟩ ⟨some (.ok (some "admin")), none⟩
    (by decide) rfl (fun rs h => Option.noConfusion h)

/-- C2: when the org-role lookup raises, an invocation of an org-role-gated
handler with a valid session and a present active organization is denied
with the transport-mapped `FORBIDDEN`; the exception is absorbed by the org
check (it evaluates to a plain `false`) and never escapes the decision. -/
theorem org_lookup_error_denies_forbidden (ctx : CtxType) (opt : Bool)
    (rr : Option (List String)) (ors : List String) (s : UserSession) (api : AuthApi)
    (hne : ors ≠ [])
    (horgid : orgIdPresent s = true)
    (herr : getMemberRoleInOrganization api = .err)
    (hsys : ∀ rs, rr = some rs → checkUserRole s rs = true ∨ rs = []) :
    checkOrgRole s api ors = false
    ∧ (canActivate ctx ⟨false, opt, rr, some ors⟩ (some s) api).result
      = .error (AuthContextErrorMap ctx .FORBIDDEN none) := by
  have horg : checkOrgRole s api ors = false := by simp [checkOrgRole, horgid, herr]
  refine ⟨horg, ?_⟩
  simp [canActivate, canActivateCore, horg, ne_nil_isEmpty_false ors hne]
  split <;> rfl

/-- C2 witness: with an active organization and a provider whose member-role
call raises, the org-gated route yields the mapped HTTP `FORBIDDEN`. -/
theorem org_lookup_error_denies_forbidden_witness :
    (canActivate .http ⟨false, false, none, some ["owner"]⟩
      (some ⟨⟨none⟩, ⟨some "org1"⟩⟩) ⟨some .err, none⟩).result
      = .error (AuthContextErrorMap .http .FORBIDDEN none) :=
  (org_lookup_error_denies_forbidden .http false none ["owner"]
    ⟨⟨none⟩, ⟨some "org1"⟩⟩ ⟨some .err, none⟩
    (by decide) (by decide) rfl (fun rs h => Option.noConfusion h)).2

/-- C10: when both a non-empty required-role set and a non-empty
required-org-role set apply and the system-role check fails, the guard
raises the mapped `FORBIDDEN` before the org-role metadata is read, so no
organization-role lookup is made. -/
theorem system_role_failure_precedes_org_policy (ctx : CtxType) (opt : Bool)
    (R orgR : List String) (s : UserSession) (api : AuthApi)
    (hR : R ≠ []) (horgR : orgR ≠ [])
    (hfail : checkUserRole s R = false) :
    (canActivate ctx ⟨false, opt, some R, some orgR⟩ (some s) api).result
      = .error (AuthContextErrorMap ctx .FORBIDDEN none)
    ∧ (canActivate ctx ⟨false, opt, some R, some orgR⟩ (some s) api).orgPolicyRead = false
    ∧ (canActivate ctx ⟨false, opt, some R, some orgR⟩ (some s) api).orgLookupAttempted
      = false := by
  refine ⟨?_, ?_, ?_⟩ <;>
    simp [canActivate, canActivateCore, hfail, ne_nil_isEmpty_false R hR]

/-- C10 witness: a caller failing the `admin` system-role check on a handler
that also requires the org role `owner` gets the mapped 403 with the org
policy never read and the provider never asked, even though the lookup would
have succeeded. -/
theorem system_role_failure_precedes_org_policy_witness :
    (canActivate .http ⟨false, false, some ["admin"], some ["owner"]⟩
      (some ⟨⟨some (.str "user")⟩, ⟨some "org1"⟩⟩) ⟨some (.ok (some "owner")), none⟩).result
      = .error (AuthContextErrorMap .http .FORBIDDEN none)
    ∧ (canActivate .http ⟨false, false, some ["admin"], some ["owner"]⟩
        (some ⟨⟨some (.str "user")⟩, ⟨some "org1"⟩⟩)
        ⟨some (.ok (some "owner")), none⟩).orgPolicyRead = false
    ∧ (canActivate .http ⟨false, false, some ["admin"], some ["owner"]⟩
        (some ⟨⟨some (.str "user")⟩, ⟨some "org1"⟩⟩)
        ⟨some (.ok (some "owner")), none⟩).orgLookupAttempted = false :=
  system_role_failure_precedes_org_policy .http false ["admin"] ["owner"]
    ⟨⟨some (.str "user")⟩, ⟨some "org1"⟩⟩ ⟨some (.ok (some "owner")), none⟩
    (by decide) (by decide) (by decide)
